import Mathlib

/-!
Shallow embedding of the fitness-tracker backend (src/main.py, src/models.py,
src/schemas.py) and proofs about its access-control, CRUD and listing
behaviour.  The database is modelled as lists of rows; each FastAPI endpoint
becomes a Lean function from its inputs and the database to a response
(and, for mutating endpoints, the resulting database).  Machine details that
no claim touches (HTTP plumbing, template rendering, pydantic validation
internals) are not modelled; timestamps are modelled as naturals.
-/

namespace Fitness

/-- Roles of `models.UserRole`: the closed enum with values "user" and "admin". -/
inductive UserRole where
  | user
  | admin
deriving DecidableEq, Repr

/-- String value of a role, as `UserRole.value` in Python ("user" / "admin"). -/
def UserRole.value : UserRole → String
  | .user => "user"
  | .admin => "admin"

/-- Row of the `users` table (models.User).  `created_at` is a logical timestamp. -/
structure User where
  id : Nat
  email : String
  username : String
  hashed_password : String
  full_name : Option String
  role : UserRole
  created_at : Nat
deriving DecidableEq, Repr

/-- Row of the `workout_plans` table (models.WorkoutPlan). -/
structure WorkoutPlan where
  id : Nat
  title : String
  description : Option String
  difficulty : Option String
  duration_weeks : Option Nat
  is_public : Bool
  created_at : Nat
  updated_at : Option Nat
  owner_id : Nat
deriving DecidableEq, Repr

/-- Row of the `exercises` table (models.Exercise).  The `order` column is
nullable in practice (an unset `order` in `ExerciseCreate` is stored as NULL),
so it is an `Option Nat`. -/
structure Exercise where
  id : Nat
  name : String
  description : Option String
  sets : Option Nat
  reps : Option String
  rest_seconds : Option Nat
  order : Option Nat
  created_at : Nat
  workout_plan_id : Nat
deriving DecidableEq, Repr

/-- The relational store: the three tables. -/
structure DB where
  users : List User
  plans : List WorkoutPlan
  exercises : List Exercise
deriving DecidableEq, Repr

/-- Bearer-token payload attached by `get_current_user_api` (the decoded JWT
claims: `sub`, `user_id`, `role`). -/
structure TokenPayload where
  sub : String
  user_id : Nat
  role : UserRole
deriving DecidableEq, Repr

/-- Identity record stored in the in-memory `sessions` map for web routes
(`{"id", "username", "email", "role"}`, role as its string value). -/
structure SessionUser where
  id : Nat
  username : String
  email : String
  role : String
deriving DecidableEq, Repr

/-- Claims put into an access token by `create_access_token({sub, user_id, role})`.
The token itself (signing, expiry) lives in auth.py, which is not among the
sources; the claims record is the observable content. -/
structure TokenClaims where
  sub : String
  user_id : Nat
  role : String
deriving DecidableEq, Repr

/-- Modelled from the spec: auth.py is not among the source files.  Section 4.1
gives `hash_password(plaintext) -> hash` as a one-way password hash.  It is
modelled as an injective tagging function. -/
def get_password_hash (plaintext : String) : String :=
  "$bcrypt$" ++ plaintext

/-- Modelled from the spec: auth.py is not among the source files.  Section 4.1
gives `verify_password(plaintext, hash) -> bool` as the checker of
`hash_password`; the pair satisfies `verify_password p (hash_password p)`. -/
def verify_password (plaintext hashed : String) : Bool :=
  hashed == get_password_hash plaintext

/-- Outcome of SQLAlchemy's `Result.scalar_one_or_none()`: `none` for zero rows,
`one` for exactly one, and `many` for the `MultipleResultsFound` exception. -/
inductive Scalar (α : Type) where
  | none : Scalar α
  | one : α → Scalar α
  | many : Scalar α
deriving DecidableEq, Repr

/-- List semantics of `scalar_one_or_none` on the rows a query returned. -/
def scalar_one_or_none : List α → Scalar α
  | [] => .none
  | [a] => .one a
  | _ :: _ :: _ => .many

/-- Response of an endpoint: a value, an `HTTPException(status, detail)`, an
HTTP redirect (web routes), or an unhandled exception surfacing as a
generic server error (e.g. `MultipleResultsFound`). -/
inductive Res (α : Type) where
  | ok : α → Res α
  | err : Nat → String → Res α
  | redirect : String → Res α
  | serverError : Res α
deriving DecidableEq, Repr

/-- Next autoincrement primary key for a list of existing ids (SQLite rowid:
one more than the largest existing id). -/
def nextId (ids : List Nat) : Nat :=
  ids.foldr max 0 + 1

/-! ### Workout-plan CRUD (src/main.py, "API РОУТЫ (CRUD ДЛЯ ПЛАНОВ ТРЕНИРОВОК)") -/

/-- Payload `schemas.WorkoutPlanCreate` (validation already applied). -/
structure WorkoutPlanCreate where
  title : String
  description : Option String
  difficulty : Option String
  duration_weeks : Option Nat
  is_public : Bool
deriving DecidableEq, Repr

/-- Payload `schemas.WorkoutPlanUpdate`: an outer `none` is a field absent from
the request body (pydantic `exclude_unset`). -/
structure WorkoutPlanUpdate where
  title : Option String
  description : Option (Option String)
  difficulty : Option (Option String)
  duration_weeks : Option (Option Nat)
  is_public : Option Bool
deriving DecidableEq, Repr

/-- Application of the `setattr` loop of `update_workout_plan` over
`model_dump(exclude_unset=True)`: exactly the supplied fields change, and
the ORM `onupdate` stamps `updated_at`. -/
def applyPlanUpdate (u : WorkoutPlanUpdate) (now : Nat) (p : WorkoutPlan) : WorkoutPlan :=
  { p with
    title := u.title.getD p.title
    description := u.description.getD p.description
    difficulty := u.difficulty.getD p.difficulty
    duration_weeks := u.duration_weeks.getD p.duration_weeks
    is_public := u.is_public.getD p.is_public
    updated_at := some now }

/-- The ownership-filtered plan lookup shared by the plan read/update/delete
endpoints: `select(WorkoutPlan).where(WorkoutPlan.id == plan_id,
WorkoutPlan.owner_id == current_user.user_id)`. -/
def ownedPlanQuery (db : DB) (plan_id : Nat) (uid : Nat) : List WorkoutPlan :=
  db.plans.filter (fun p => p.id == plan_id && p.owner_id == uid)

/-- Endpoint `POST /api/workout-plans/` (`create_workout_plan`): the new row is
built from the payload plus `owner_id=current_user.user_id`. -/
def create_workout_plan (current_user : TokenPayload) (plan_data : WorkoutPlanCreate)
    (now : Nat) (db : DB) : Res WorkoutPlan × DB :=
  let db_plan : WorkoutPlan :=
    { id := nextId (db.plans.map (·.id))
      title := plan_data.title
      description := plan_data.description
      difficulty := plan_data.difficulty
      duration_weeks := plan_data.duration_weeks
      is_public := plan_data.is_public
      created_at := now
      updated_at := Option.none
      owner_id := current_user.user_id }
  (.ok db_plan, { db with plans := db.plans ++ [db_plan] })

/-- Endpoint `GET /api/workout-plans/{plan_id}` (`get_workout_plan`). -/
def get_workout_plan (current_user : TokenPayload) (plan_id : Nat) (db : DB) :
    Res WorkoutPlan :=
  match scalar_one_or_none (ownedPlanQuery db plan_id current_user.user_id) with
  | .none => .err 404 "План тренировок не найден"
  | .one plan => .ok plan
  | .many => .serverError

/-- Endpoint `PUT /api/workout-plans/{plan_id}` (`update_workout_plan`). -/
def update_workout_plan (current_user : TokenPayload) (plan_id : Nat)
    (plan_data : WorkoutPlanUpdate) (now : Nat) (db : DB) : Res WorkoutPlan × DB :=
  match scalar_one_or_none (ownedPlanQuery db plan_id current_user.user_id) with
  | .none => (.err 404 "План тренировок не найден", db)
  | .one plan =>
      let plan' := applyPlanUpdate plan_data now plan
      (.ok plan',
       { db with plans := db.plans.map (fun q => if q.id == plan.id then plan' else q) })
  | .many => (.serverError, db)

/-- Endpoint `DELETE /api/workout-plans/{plan_id}` (`delete_workout_plan`).
`db.delete(plan)` cascades to the plan's exercises through the
`cascade="all, delete-orphan"` relationship. -/
def delete_workout_plan (current_user : TokenPayload) (plan_id : Nat) (db : DB) :
    Res String × DB :=
  match scalar_one_or_none (ownedPlanQuery db plan_id current_user.user_id) with
  | .none => (.err 404 "План тренировок не найден", db)
  | .one plan =>
      (.ok "План тренировок удален",
       { db with
         plans := db.plans.filter (fun q => !(q.id == plan.id))
         exercises := db.exercises.filter (fun e => !(e.workout_plan_id == plan.id)) })
  | .many => (.serverError, db)

/-! ### Exercise CRUD (src/main.py, "API ДЛЯ УПРАЖНЕНИЙ") -/

/-- Payload `schemas.ExerciseCreate` (validation already applied). -/
structure ExerciseCreate where
  name : String
  description : Option String
  sets : Option Nat
  reps : Option String
  rest_seconds : Option Nat
  order : Option Nat
  workout_plan_id : Nat
deriving DecidableEq, Repr

/-- Payload `schemas.ExerciseUpdate`: an outer `none` is a field absent from the
request body (pydantic `exclude_unset`). -/
structure ExerciseUpdate where
  name : Option String
  description : Option (Option String)
  sets : Option (Option Nat)
  reps : Option (Option String)
  rest_seconds : Option (Option Nat)
  order : Option (Option Nat)
deriving DecidableEq, Repr

/-- Application of the `setattr` loop of `update_exercise` over
`model_dump(exclude_unset=True)`. -/
def applyExerciseUpdate (u : ExerciseUpdate) (e : Exercise) : Exercise :=
  { e with
    name := u.name.getD e.name
    description := u.description.getD e.description
    sets := u.sets.getD e.sets
    reps := u.reps.getD e.reps
    rest_seconds := u.rest_seconds.getD e.rest_seconds
    order := u.order.getD e.order }

/-- The join of `select(Exercise).join(WorkoutPlan)`: each exercise paired with
every plan whose id matches its foreign key. -/
def exercisePlanJoin (db : DB) : List (Exercise × WorkoutPlan) :=
  db.exercises.flatMap fun e =>
    (db.plans.filter (fun p => p.id == e.workout_plan_id)).map (fun p => (e, p))

/-- The joined, ownership-filtered exercise lookup shared by
`update_exercise` and `delete_exercise`: `select(Exercise).join(WorkoutPlan)
.where(Exercise.id == exercise_id, WorkoutPlan.owner_id == current_user.user_id)`,
then `scalars()` (the Exercise column of each row). -/
def ownedExerciseQuery (db : DB) (exercise_id : Nat) (uid : Nat) : List Exercise :=
  ((exercisePlanJoin db).filter
    (fun ep => ep.1.id == exercise_id && ep.2.owner_id == uid)).map (·.1)

/-- Ordering key of `order_by(Exercise.order)` under SQLite: NULL sorts before
every integer, integers ascend. -/
def exOrderKey (e : Exercise) : Nat :=
  match e.order with
  | Option.none => 0
  | some n => n + 1

/-- Row comparison realised by `order_by(Exercise.order)`. -/
def exOrderLE (a b : Exercise) : Prop :=
  exOrderKey a ≤ exOrderKey b

instance : DecidableRel exOrderLE := fun _ _ => Nat.decLe _ _

instance : IsTotal Exercise exOrderLE := ⟨fun _ _ => Nat.le_total _ _⟩

instance : IsTrans Exercise exOrderLE := ⟨fun _ _ _ => Nat.le_trans⟩

/-- The rows of `select(Exercise).where(Exercise.workout_plan_id == plan_id)
.order_by(Exercise.order)`, shared by `get_exercises_by_plan` and
`plan_detail_page`. -/
def exercisesOfPlanSorted (db : DB) (plan_id : Nat) : List Exercise :=
  List.insertionSort exOrderLE (db.exercises.filter (fun e => e.workout_plan_id == plan_id))

/-- Endpoint `POST /api/exercises/` (`create_exercise`): creation is rejected
with 404 unless the payload's `workout_plan_id` names a plan owned by the
caller; the new row takes the payload's fields, `workout_plan_id` included. -/
def create_exercise (current_user : TokenPayload) (exercise_data : ExerciseCreate)
    (now : Nat) (db : DB) : Res Exercise × DB :=
  match scalar_one_or_none (ownedPlanQuery db exercise_data.workout_plan_id current_user.user_id) with
  | .none => (.err 404 "План тренировок не найден", db)
  | .many => (.serverError, db)
  | .one _ =>
      let db_exercise : Exercise :=
        { id := nextId (db.exercises.map (·.id))
          name := exercise_data.name
          description := exercise_data.description
          sets := exercise_data.sets
          reps := exercise_data.reps
          rest_seconds := exercise_data.rest_seconds
          order := exercise_data.order
          created_at := now
          workout_plan_id := exercise_data.workout_plan_id }
      (.ok db_exercise, { db with exercises := db.exercises ++ [db_exercise] })

/-- Endpoint `GET /api/exercises/plan/{plan_id}` (`get_exercises_by_plan`). -/
def get_exercises_by_plan (current_user : TokenPayload) (plan_id : Nat) (db : DB) :
    Res (List Exercise) :=
  match scalar_one_or_none (ownedPlanQuery db plan_id current_user.user_id) with
  | .none => .err 404 "План тренировок не найден"
  | .many => .serverError
  | .one _ => .ok (exercisesOfPlanSorted db plan_id)

/-- Endpoint `PUT /api/exercises/{exercise_id}` (`update_exercise`). -/
def update_exercise (current_user : TokenPayload) (exercise_id : Nat)
    (exercise_data : ExerciseUpdate) (db : DB) : Res Exercise × DB :=
  match scalar_one_or_none (ownedExerciseQuery db exercise_id current_user.user_id) with
  | .none => (.err 404 "Упражнение не найдено", db)
  | .many => (.serverError, db)
  | .one exercise =>
      let ex' := applyExerciseUpdate exercise_data exercise
      (.ok ex',
       { db with
         exercises := db.exercises.map (fun e => if e.id == exercise.id then ex' else e) })

/-- Endpoint `DELETE /api/exercises/{exercise_id}` (`delete_exercise`). -/
def delete_exercise (current_user : TokenPayload) (exercise_id : Nat) (db : DB) :
    Res String × DB :=
  match scalar_one_or_none (ownedExerciseQuery db exercise_id current_user.user_id) with
  | .none => (.err 404 "Упражнение не найдено", db)
  | .many => (.serverError, db)
  | .one exercise =>
      (.ok "Упражнение удалено",
       { db with exercises := db.exercises.filter (fun e => !(e.id == exercise.id)) })

/-! ### Admin API (src/main.py, "АДМИНИСТРАТИВНЫЕ API").  Each endpoint depends
on `get_current_admin_api`, which raises 403 for a non-admin caller; that
dependency is inlined as the first check. -/

/-- Payload `schemas.AdminUserUpdate`. -/
structure AdminUserUpdate where
  role : Option UserRole
deriving DecidableEq, Repr

/-- Dependency `get_current_admin_api`: 403 unless the token's role is admin. -/
def isAdminCaller (caller : TokenPayload) : Bool :=
  caller.role == UserRole.admin

/-- Endpoint `PUT /api/admin/users/{user_id}/role` (`admin_change_user_role`):
400 on the caller's own id, 404 on an unknown id, otherwise the role is set
when one is supplied. -/
def admin_change_user_role (admin : TokenPayload) (user_id : Nat)
    (role_update : AdminUserUpdate) (db : DB) : Res String × DB :=
  if !(isAdminCaller admin) then (.err 403 "Недостаточно прав", db)
  else if user_id == admin.user_id then (.err 400 "Нельзя изменить свою роль", db)
  else
    match scalar_one_or_none (db.users.filter (fun u => u.id == user_id)) with
    | .none => (.err 404 "Пользователь не найден", db)
    | .many => (.serverError, db)
    | .one user =>
        let user' :=
          match role_update.role with
          | Option.none => user
          | some r => { user with role := r }
        (.ok ("Роль пользователя изменена на " ++ user'.role.value),
         { db with users := db.users.map (fun u => if u.id == user.id then user' else u) })

/-- Endpoint `DELETE /api/admin/users/{user_id}` (`admin_delete_user`):
400 on the caller's own id, 404 on an unknown id; `db.delete(user)` cascades
through `User.workout_plans` to the user's plans and each plan's exercises. -/
def admin_delete_user (admin : TokenPayload) (user_id : Nat) (db : DB) :
    Res String × DB :=
  if !(isAdminCaller admin) then (.err 403 "Недостаточно прав", db)
  else if user_id == admin.user_id then (.err 400 "Нельзя удалить себя", db)
  else
    match scalar_one_or_none (db.users.filter (fun u => u.id == user_id)) with
    | .none => (.err 404 "Пользователь не найден", db)
    | .many => (.serverError, db)
    | .one user =>
        (.ok ("Пользователь " ++ user.username ++ " удален"),
         { users := db.users.filter (fun u => !(u.id == user_id))
           plans := db.plans.filter (fun p => !(p.owner_id == user_id))
           exercises := db.exercises.filter (fun e =>
             !(db.plans.any (fun p => p.owner_id == user_id && p.id == e.workout_plan_id))) })

/-- Endpoint `DELETE /api/admin/workout-plans/{plan_id}`
(`admin_delete_workout_plan`): looks the plan up by id alone — no ownership
filter — and deletes it (cascading to its exercises). -/
def admin_delete_workout_plan (admin : TokenPayload) (plan_id : Nat) (db : DB) :
    Res String × DB :=
  if !(isAdminCaller admin) then (.err 403 "Недостаточно прав", db)
  else
    match scalar_one_or_none (db.plans.filter (fun p => p.id == plan_id)) with
    | .none => (.err 404 "План тренировок не найден", db)
    | .many => (.serverError, db)
    | .one plan =>
        (.ok ("План тренировок " ++ toString plan_id ++ " удален администратором"),
         { db with
           plans := db.plans.filter (fun q => !(q.id == plan.id))
           exercises := db.exercises.filter (fun e => !(e.workout_plan_id == plan.id)) })

/-! ### Self-service profile (src/main.py, "API ДЛЯ ПОЛЬЗОВАТЕЛЯ") -/

/-- Payload `schemas.UserUpdate`: an outer `none` is a field absent from the
request body (pydantic `exclude_unset`). -/
structure UserUpdate where
  email : Option String
  username : Option String
  full_name : Option (Option String)
  password : Option String
deriving DecidableEq, Repr

/-- Application of the update loop of `update_current_user`: the supplied
fields are set, a supplied password first replaced by its hash
(`update_data["hashed_password"] = get_password_hash(update_data.pop("password"))`). -/
def applyUserUpdate (u : UserUpdate) (x : User) : User :=
  { x with
    email := u.email.getD x.email
    username := u.username.getD x.username
    full_name := u.full_name.getD x.full_name
    hashed_password :=
      match u.password with
      | Option.none => x.hashed_password
      | some pw => get_password_hash pw }

/-- Endpoint `PUT /api/users/me` (`update_current_user`): after the caller's
row is loaded, a supplied email or username that differs from the current one
and collides with an existing row is rejected with 400; otherwise the supplied
fields are applied, the password hashed. -/
def update_current_user (current_user : TokenPayload) (user_data : UserUpdate)
    (db : DB) : Res User × DB :=
  match scalar_one_or_none (db.users.filter (fun u => u.id == current_user.user_id)) with
  | .none => (.err 404 "Пользователь не найден", db)
  | .many => (.serverError, db)
  | .one user =>
      let emailConflict :=
        match user_data.email with
        | Option.none => false
        | some e => !(e == user.email) && db.users.any (fun u => u.email == e)
      let usernameConflict :=
        match user_data.username with
        | Option.none => false
        | some n => !(n == user.username) && db.users.any (fun u => u.username == n)
      if emailConflict then (.err 400 "Email уже используется", db)
      else if usernameConflict then (.err 400 "Имя пользователя уже используется", db)
      else
        let user' := applyUserUpdate user_data user
        (.ok user',
         { db with users := db.users.map (fun u => if u.id == user.id then user' else u) })

/-! ### Authentication API (src/main.py, "API АУТЕНТИФИКАЦИИ") and the web
login/register forms. -/

/-- Payload `schemas.UserCreate` (validation already applied; under pydantic
`EmailStr` the email field contains an "@", the username is any 3–50
character string). -/
structure UserCreate where
  email : String
  username : String
  password : String
  full_name : Option String
deriving DecidableEq, Repr

/-- The duplicate probe shared by both registration paths:
`select(User).where(User.email == email or User.username == username)`.
Its result goes through `scalar_one_or_none()`, which raises
`MultipleResultsFound` when the email matches one stored user and the
username a different one. -/
def registrationQuery (db : DB) (email username : String) : List User :=
  db.users.filter (fun u => u.email == email || u.username == username)

/-- The row inserted by both registration paths. -/
def freshUser (db : DB) (email username password : String) (full_name : Option String)
    (now : Nat) : User :=
  { id := nextId (db.users.map (·.id))
    email := email
    username := username
    hashed_password := get_password_hash password
    full_name := full_name
    role := UserRole.user
    created_at := now }

/-- Endpoint `POST /api/auth/register` (`api_register`): one row matching the
duplicate probe gives 400; two matching rows make `scalar_one_or_none()`
raise `MultipleResultsFound`, surfacing a generic server error; no match
creates the new user row. -/
def api_register (user_data : UserCreate) (now : Nat) (db : DB) : Res User × DB :=
  match scalar_one_or_none (registrationQuery db user_data.email user_data.username) with
  | .one _ => (.err 400 "Email или имя пользователя уже существуют", db)
  | .many => (.serverError, db)
  | .none =>
      let new_user := freshUser db user_data.email user_data.username user_data.password
        user_data.full_name now
      (.ok new_user, { db with users := db.users ++ [new_user] })

/-- Endpoint `POST /register` (web form `register`): one row matching the
duplicate probe redirects to `/register?error=1`; two matching rows make
`scalar_one_or_none()` raise `MultipleResultsFound`, surfacing a generic
server error; otherwise the user is created and logged in (session record and
api token cookies, redirect to `/dashboard`, modelled by the `ok` payload). -/
def register (email username password : String) (full_name : Option String)
    (now : Nat) (db : DB) : Res (SessionUser × TokenClaims) × DB :=
  match scalar_one_or_none (registrationQuery db email username) with
  | .one _ => (.redirect "/register?error=1", db)
  | .many => (.serverError, db)
  | .none =>
      let new_user := freshUser db email username password full_name now
      (.ok ({ id := new_user.id, username := new_user.username,
              email := new_user.email, role := new_user.role.value },
            { sub := new_user.username, user_id := new_user.id,
              role := new_user.role.value }),
       { db with users := db.users ++ [new_user] })

/-- The credential lookup shared by both login paths:
`select(User).where(User.email == username or User.username == username)`
followed by `scalar_one_or_none()` — which raises `MultipleResultsFound`
when the supplied string is one user's email and another user's username. -/
def loginLookup (db : DB) (username : String) : Scalar User :=
  scalar_one_or_none
    (db.users.filter (fun u => u.email == username || u.username == username))

/-- Endpoint `POST /login` (web form `login`): no match or a failed password
check redirects to `/login?error=1`; success stores a session record and an
api token and redirects to `/dashboard` (modelled by the `ok` payload). -/
def login (username password : String) (db : DB) :
    Res (SessionUser × TokenClaims) :=
  match loginLookup db username with
  | .none => .redirect "/login?error=1"
  | .many => .serverError
  | .one user =>
      if !(verify_password password user.hashed_password) then
        .redirect "/login?error=1"
      else
        .ok ({ id := user.id, username := user.username,
               email := user.email, role := user.role.value },
             { sub := user.username, user_id := user.id, role := user.role.value })

/-- Endpoint `POST /api/auth/login` (`api_login`): 401 on no match or a failed
password check, otherwise the access token's claims. -/
def api_login (username password : String) (db : DB) : Res TokenClaims :=
  match loginLookup db username with
  | .none => .err 401 "Неверные учетные данные"
  | .many => .serverError
  | .one user =>
      if !(verify_password password user.hashed_password) then
        .err 401 "Неверные учетные данные"
      else
        .ok { sub := user.username, user_id := user.id, role := user.role.value }

/-! ### Web plan-detail page and the public listing. -/

/-- Endpoint `GET /plan/{plan_id}` (`plan_detail_page`): with no session a
redirect to `/login`; an admin session looks the plan up by id alone, any
other session filters by ownership; 404 when the lookup is empty, otherwise
the plan with its exercises ordered by `order`. -/
def plan_detail_page (session : Option SessionUser) (plan_id : Nat) (db : DB) :
    Res (WorkoutPlan × List Exercise) :=
  match session with
  | Option.none => .redirect "/login"
  | some current_user =>
      let rows :=
        if current_user.role == "admin" then
          db.plans.filter (fun p => p.id == plan_id)
        else
          db.plans.filter (fun p => p.id == plan_id && p.owner_id == current_user.id)
      match scalar_one_or_none rows with
      | .none => .err 404 "План не найден"
      | .many => .serverError
      | .one plan => .ok (plan, exercisesOfPlanSorted db plan_id)

/-- Ordering realised by `order_by(desc(WorkoutPlan.created_at))`. -/
def planCreatedDesc (a b : WorkoutPlan) : Prop :=
  b.created_at ≤ a.created_at

instance : DecidableRel planCreatedDesc := fun _ _ => Nat.decLe _ _

instance : IsTotal WorkoutPlan planCreatedDesc := ⟨fun _ _ => Nat.le_total _ _⟩

instance : IsTrans WorkoutPlan planCreatedDesc :=
  ⟨fun _ _ _ hab hbc => Nat.le_trans hbc hab⟩

/-- Endpoint `GET /api/public/workout-plans` (`get_public_workout_plans`):
unauthenticated; filters to `is_public`, orders by creation time descending,
then applies `offset(skip).limit(limit)`. -/
def get_public_workout_plans (skip limit : Nat) (db : DB) : List WorkoutPlan :=
  (((List.insertionSort planCreatedDesc (db.plans.filter (·.is_public))).drop skip).take limit)

/-! ### Wellformedness and query lemmas -/

/-- Wellformedness of the store: primary keys are unique in every table
(they are `primary_key` columns, assigned by autoincrement). -/
def DB.wf (db : DB) : Prop :=
  (db.users.map (·.id)).Nodup ∧ (db.plans.map (·.id)).Nodup ∧
    (db.exercises.map (·.id)).Nodup

/-- Filtering a duplicate-free list by a predicate that holds of `a` alone
returns exactly `[a]`. -/
theorem filter_eq_singleton {α : Type} {l : List α} {p : α → Bool} {a : α}
    (hnd : l.Nodup) (ha : a ∈ l) (hpa : p a = true)
    (huniq : ∀ b ∈ l, p b = true → b = a) : l.filter p = [a] := by
  induction l with
  | nil => cases ha
  | cons x xs ih =>
      rcases List.nodup_cons.mp hnd with ⟨hx, hxs⟩
      rcases List.mem_cons.mp ha with h | hmem
      · subst h
        rw [List.filter_cons_of_pos hpa]
        have hnil : xs.filter p = [] := by
          apply List.filter_eq_nil_iff.mpr
          intro b hb hpb
          exact hx (huniq b (List.mem_cons_of_mem _ hb) hpb ▸ hb)
        rw [hnil]
      · have hpx : p x = false := by
          by_contra hcontra
          have : x = a := huniq x (List.mem_cons_self x xs) (eq_true_of_ne_false hcontra)
          exact hx (this ▸ hmem)
        rw [List.filter_cons_of_neg (by simp [hpx])]
        exact ih hxs hmem (fun b hb hpb => huniq b (List.mem_cons_of_mem _ hb) hpb)

/-- Lifting of a duplicate-free key column to member injectivity. -/
theorem key_inj {α : Type} {l : List α} {f : α → Nat}
    (hw : (l.map f).Nodup) {x y : α} (hx : x ∈ l) (hy : y ∈ l) (h : f x = f y) :
    x = y :=
  List.inj_on_of_nodup_map hw hx hy h

/-- The ownership-filtered plan query is empty whenever no plan both carries the
requested id and is owned by the caller. -/
theorem ownedPlanQuery_nil {db : DB} {pid uid : Nat}
    (h : ∀ p ∈ db.plans, p.id = pid → p.owner_id ≠ uid) :
    ownedPlanQuery db pid uid = [] := by
  apply List.filter_eq_nil_iff.mpr
  intro p hp hcontra
  simp only [Bool.and_eq_true, beq_iff_eq] at hcontra
  exact h p hp hcontra.1 hcontra.2

/-- The ownership-filtered plan query returns exactly the caller's plan when it
exists (plan ids duplicate-free). -/
theorem ownedPlanQuery_singleton {db : DB} (hw : (db.plans.map (·.id)).Nodup)
    {P : WorkoutPlan} (hP : P ∈ db.plans) {uid : Nat} (hown : P.owner_id = uid) :
    ownedPlanQuery db P.id uid = [P] := by
  apply filter_eq_singleton (hw.of_map _) hP (by simp [hown])
  intro b hb hpb
  simp only [Bool.and_eq_true, beq_iff_eq] at hpb
  exact key_inj hw hb hP hpb.1

/-- The joined, ownership-filtered exercise query is empty whenever no
exercise with the requested id sits in a plan owned by the caller. -/
theorem ownedExerciseQuery_nil {db : DB} {eid uid : Nat}
    (h : ∀ e ∈ db.exercises, e.id = eid →
         ∀ p ∈ db.plans, p.id = e.workout_plan_id → p.owner_id ≠ uid) :
    ownedExerciseQuery db eid uid = [] := by
  unfold ownedExerciseQuery
  rw [List.filter_eq_nil_iff.mpr, List.map_nil]
  intro ep hep hcontra
  simp only [Bool.and_eq_true, beq_iff_eq] at hcontra
  rcases List.mem_flatMap.mp hep with ⟨e, he, hmem⟩
  rcases List.mem_map.mp hmem with ⟨p, hpmem, hpair⟩
  have hpid : p.id = e.workout_plan_id := by
    simpa using (List.mem_filter.mp hpmem).2
  have hpl : p ∈ db.plans := (List.mem_filter.mp hpmem).1
  subst hpair
  exact h e he hcontra.1 p hpl hpid hcontra.2

/-- A plain primary-key filter is empty when no row carries the id. -/
theorem idFilter_nil {α : Type} {l : List α} {f : α → Nat} {t : Nat}
    (h : ∀ x ∈ l, f x ≠ t) : l.filter (fun x => f x == t) = [] :=
  List.filter_eq_nil_iff.mpr (fun x hx hc => h x hx (by simpa using hc))

/-- A plain primary-key filter on a duplicate-free key column returns exactly
the row carrying the id. -/
theorem idFilter_singleton {α : Type} {l : List α} {f : α → Nat}
    (hw : (l.map f).Nodup) {a : α} (ha : a ∈ l) :
    l.filter (fun x => f x == f a) = [a] :=
  filter_eq_singleton (hw.of_map _) ha (by simp)
    (fun b hb hpb => key_inj hw hb ha (by simpa using hpb))

/-- The ownership-filtered plan query is empty for a caller who is not the
plan's owner (plan ids duplicate-free). -/
theorem ownedPlanQuery_nil_of_not_owner {db : DB}
    (hwp : (db.plans.map (·.id)).Nodup) {P : WorkoutPlan} (hP : P ∈ db.plans)
    {uid : Nat} (hne : uid ≠ P.owner_id) :
    ownedPlanQuery db P.id uid = [] := by
  apply ownedPlanQuery_nil
  intro p hp hpid hown
  exact hne ((key_inj hwp hp hP hpid ▸ hown) ▸ rfl)

/-- The joined, ownership-filtered exercise query is empty for a caller who is
not the owner of the exercise's plan (plan / exercise ids duplicate-free). -/
theorem ownedExerciseQuery_nil_of_not_owner {db : DB}
    (hwp : (db.plans.map (·.id)).Nodup) (hwe : (db.exercises.map (·.id)).Nodup)
    {E : Exercise} (hE : E ∈ db.exercises) {P : WorkoutPlan} (hP : P ∈ db.plans)
    (hEP : E.workout_plan_id = P.id) {uid : Nat} (hne : uid ≠ P.owner_id) :
    ownedExerciseQuery db E.id uid = [] := by
  apply ownedExerciseQuery_nil
  intro e he heid p hp hpid hown
  have heE : e = E := key_inj hwe he hE heid
  subst heE
  have hpP : p = P := key_inj hwp hp hP (by rw [hpid, hEP])
  subst hpP
  exact hne hown.symm

/-- An empty ownership-filtered plan lookup sends every plan-scoped endpoint to
its 404. -/
theorem plan_ops_404 (db : DB) (caller : TokenPayload) (pid : Nat)
    (hz : ownedPlanQuery db pid caller.user_id = [])
    (u : WorkoutPlanUpdate) (now : Nat) :
    get_workout_plan caller pid db = .err 404 "План тренировок не найден"
    ∧ update_workout_plan caller pid u now db
        = (.err 404 "План тренировок не найден", db)
    ∧ delete_workout_plan caller pid db
        = (.err 404 "План тренировок не найден", db)
    ∧ get_exercises_by_plan caller pid db = .err 404 "План тренировок не найден" :=
  ⟨by simp [get_workout_plan, hz, scalar_one_or_none],
   by simp [update_workout_plan, hz, scalar_one_or_none],
   by simp [delete_workout_plan, hz, scalar_one_or_none],
   by simp [get_exercises_by_plan, hz, scalar_one_or_none]⟩

/-- An empty joined exercise lookup sends both exercise-scoped endpoints to
their 404. -/
theorem exercise_ops_404 (db : DB) (caller : TokenPayload) (eid : Nat)
    (hz : ownedExerciseQuery db eid caller.user_id = []) (eu : ExerciseUpdate) :
    update_exercise caller eid eu db = (.err 404 "Упражнение не найдено", db)
    ∧ delete_exercise caller eid db = (.err 404 "Упражнение не найдено", db) :=
  ⟨by simp [update_exercise, hz, scalar_one_or_none],
   by simp [delete_exercise, hz, scalar_one_or_none]⟩

/-! ### Concrete sample data, used to instantiate the theorems -/

/-- Sample stored plan, owned by user 2. -/
def samplePlan : WorkoutPlan :=
  { id := 10, title := "5k Plan", description := some "run three times a week",
    difficulty := some "beginner", duration_weeks := some 6, is_public := false,
    created_at := 3, updated_at := Option.none, owner_id := 2 }

/-- Sample stored exercise of `samplePlan`. -/
def sampleExercise : Exercise :=
  { id := 5, name := "Squat", description := Option.none, sets := some 3,
    reps := some "10", rest_seconds := some 60, order := some 1,
    created_at := 4, workout_plan_id := 10 }

/-- Sample ordinary user, the owner of `samplePlan`. -/
def sampleUserU : User :=
  { id := 2, email := "u@x.com", username := "ursula",
    hashed_password := get_password_hash "secret1", full_name := Option.none,
    role := UserRole.user, created_at := 1 }

/-- Sample administrator account (the seeded default admin). -/
def sampleAdmin : User :=
  { id := 1, email := "admin@example.com", username := "admin",
    hashed_password := get_password_hash "admin123",
    full_name := some "Администратор системы", role := UserRole.admin,
    created_at := 0 }

/-- Sample store holding both users, the plan and its exercise. -/
def sampleDB : DB :=
  { users := [sampleAdmin, sampleUserU], plans := [samplePlan],
    exercises := [sampleExercise] }

/-- Bearer token of a third, non-admin user (id 3). -/
def callerV : TokenPayload := { sub := "victor", user_id := 3, role := UserRole.user }

/-- Bearer token of the administrator (id 1). -/
def adminTok : TokenPayload := { sub := "admin", user_id := 1, role := UserRole.admin }

/-- Admin web session record, as the `sessions` map stores it. -/
def adminSession : SessionUser :=
  { id := 1, username := "admin", email := "admin@example.com", role := "admin" }

/-- Plan-update payload with every field absent. -/
def emptyPlanUpdate : WorkoutPlanUpdate :=
  ⟨Option.none, Option.none, Option.none, Option.none, Option.none⟩

/-- Exercise-update payload with every field absent. -/
def emptyExerciseUpdate : ExerciseUpdate :=
  ⟨Option.none, Option.none, Option.none, Option.none, Option.none, Option.none⟩

/-! ### Claim theorems -/

/-- C2: for every plan P owned by user U and every authenticated non-admin
caller V with V ≠ U, reading, updating, or deleting P returns NotFound (404)
and never Forbidden (403), and the response is byte-identical to the one V
receives when no plan (resp. exercise) with that id exists at all, so absence
and not-owned are indistinguishable to the caller. -/
theorem not_owned_indistinguishable_from_absent
    (db : DB) (caller : TokenPayload) (P : WorkoutPlan)
    (hwp : (db.plans.map (·.id)).Nodup)
    (hwe : (db.exercises.map (·.id)).Nodup)
    (hP : P ∈ db.plans)
    (_hrole : caller.role ≠ UserRole.admin)
    (hne : caller.user_id ≠ P.owner_id)
    (u : WorkoutPlanUpdate) (now : Nat) (eu : ExerciseUpdate) :
    get_workout_plan caller P.id db = .err 404 "План тренировок не найден"
    ∧ update_workout_plan caller P.id u now db
        = (.err 404 "План тренировок не найден", db)
    ∧ delete_workout_plan caller P.id db
        = (.err 404 "План тренировок не найден", db)
    ∧ (∀ E ∈ db.exercises, E.workout_plan_id = P.id →
        update_exercise caller E.id eu db = (.err 404 "Упражнение не найдено", db))
    ∧ (∀ pid, (∀ q ∈ db.plans, q.id ≠ pid) →
        get_workout_plan caller pid db = .err 404 "План тренировок не найден"
        ∧ update_workout_plan caller pid u now db
            = (.err 404 "План тренировок не найден", db)
        ∧ delete_workout_plan caller pid db
            = (.err 404 "План тренировок не найден", db))
    ∧ (∀ eid, (∀ e ∈ db.exercises, e.id ≠ eid) →
        update_exercise caller eid eu db = (.err 404 "Упражнение не найдено", db)) := by
  have hzero : ownedPlanQuery db P.id caller.user_id = [] :=
    ownedPlanQuery_nil_of_not_owner hwp hP hne
  obtain ⟨h1, h2, h3, _⟩ := plan_ops_404 db caller P.id hzero u now
  refine ⟨h1, h2, h3, ?_, ?_, ?_⟩
  · intro E hE hEP
    exact (exercise_ops_404 db caller E.id
      (ownedExerciseQuery_nil_of_not_owner hwp hwe hE hP hEP hne) eu).1
  · intro pid habs
    obtain ⟨g1, g2, g3, _⟩ := plan_ops_404 db caller pid
      (ownedPlanQuery_nil (fun p hp hpid _ => habs p hp hpid)) u now
    exact ⟨g1, g2, g3⟩
  · intro eid habs
    exact (exercise_ops_404 db caller eid
      (ownedExerciseQuery_nil (fun e he heid _ _ _ _ => habs e he heid)) eu).1

/-- C2 witness: the ownership-hiding theorem applied to the sample store and a
concrete non-admin caller who does not own the stored plan. -/
theorem not_owned_indistinguishable_from_absent_witness :
    ((sampleDB.plans.map (·.id)).Nodup
     ∧ (sampleDB.exercises.map (·.id)).Nodup
     ∧ samplePlan ∈ sampleDB.plans
     ∧ callerV.role ≠ UserRole.admin
     ∧ callerV.user_id ≠ samplePlan.owner_id)
    ∧ get_workout_plan callerV samplePlan.id sampleDB
        = .err 404 "План тренировок не найден" :=
  ⟨⟨by decide, by decide, by decide, by decide, by decide⟩,
   (not_owned_indistinguishable_from_absent sampleDB callerV samplePlan
      (by decide) (by decide) (by decide) (by decide) (by decide)
      emptyPlanUpdate 0 emptyExerciseUpdate).1⟩

/-- C1 counterexample: the admin bearer token (user id 1) is not the owner of
the stored plan (id 10, owner 2); reading, updating and deleting the plan
through the API workout-plan operations — and updating its exercise — all
return NotFound, so the ownership filter is not dropped for an admin caller
on these operations. -/
theorem admin_reads_of_foreign_plan_return_404 :
    adminTok.role = UserRole.admin
    ∧ samplePlan ∈ sampleDB.plans
    ∧ adminTok.user_id ≠ samplePlan.owner_id
    ∧ get_workout_plan adminTok samplePlan.id sampleDB
        = .err 404 "План тренировок не найден"
    ∧ update_workout_plan adminTok samplePlan.id emptyPlanUpdate 9 sampleDB
        = (.err 404 "План тренировок не найден", sampleDB)
    ∧ delete_workout_plan adminTok samplePlan.id sampleDB
        = (.err 404 "План тренировок не найден", sampleDB)
    ∧ update_exercise adminTok sampleExercise.id emptyExerciseUpdate sampleDB
        = (.err 404 "Упражнение не найдено", sampleDB) := by
  decide

/-- C1 as amended: the ownership filter of the API read/update/delete
operations on plans and exercises is applied to every caller, admins
included — an admin who does not own the record gets the same 404; the
admin-wide access without ownership filtering exists only on the web
plan-detail page (admin session branch) and on the dedicated admin endpoint
`DELETE /api/admin/workout-plans/{plan_id}`. -/
theorem ownership_filter_applies_to_admins_too
    (db : DB) (caller : TokenPayload) (P : WorkoutPlan)
    (hwp : (db.plans.map (·.id)).Nodup)
    (hwe : (db.exercises.map (·.id)).Nodup)
    (hP : P ∈ db.plans)
    (hne : caller.user_id ≠ P.owner_id)
    (su : SessionUser) (hadm : su.role = "admin")
    (atk : TokenPayload) (hatk : atk.role = UserRole.admin)
    (u : WorkoutPlanUpdate) (now : Nat) (eu : ExerciseUpdate) :
    (get_workout_plan caller P.id db = .err 404 "План тренировок не найден"
     ∧ update_workout_plan caller P.id u now db
         = (.err 404 "План тренировок не найден", db)
     ∧ delete_workout_plan caller P.id db
         = (.err 404 "План тренировок не найден", db)
     ∧ get_exercises_by_plan caller P.id db = .err 404 "План тренировок не найден"
     ∧ (∀ E ∈ db.exercises, E.workout_plan_id = P.id →
          update_exercise caller E.id eu db = (.err 404 "Упражнение не найдено", db)
          ∧ delete_exercise caller E.id db = (.err 404 "Упражнение не найдено", db)))
    ∧ plan_detail_page (some su) P.id db = .ok (P, exercisesOfPlanSorted db P.id)
    ∧ (admin_delete_workout_plan atk P.id db).1
        = .ok ("План тренировок " ++ toString P.id ++ " удален администратором") := by
  have hzero : ownedPlanQuery db P.id caller.user_id = [] :=
    ownedPlanQuery_nil_of_not_owner hwp hP hne
  have hq : db.plans.filter (fun p => p.id == P.id) = [P] := idFilter_singleton hwp hP
  refine ⟨⟨(plan_ops_404 db caller P.id hzero u now).1,
          (plan_ops_404 db caller P.id hzero u now).2.1,
          (plan_ops_404 db caller P.id hzero u now).2.2.1,
          (plan_ops_404 db caller P.id hzero u now).2.2.2, ?_⟩, ?_, ?_⟩
  · intro E hE hEP
    exact exercise_ops_404 db caller E.id
      (ownedExerciseQuery_nil_of_not_owner hwp hwe hE hP hEP hne) eu
  · simp [plan_detail_page, hadm, hq, scalar_one_or_none]
  · simp [admin_delete_workout_plan, isAdminCaller, hatk, hq, scalar_one_or_none]

/-- C1 amended-theorem witness: the amended statement instantiated on the
sample store, a concrete admin caller, an admin web session and the admin
delete endpoint. -/
theorem ownership_filter_applies_to_admins_too_witness :
    ((sampleDB.plans.map (·.id)).Nodup
     ∧ (sampleDB.exercises.map (·.id)).Nodup
     ∧ samplePlan ∈ sampleDB.plans
     ∧ adminTok.user_id ≠ samplePlan.owner_id
     ∧ adminSession.role = "admin"
     ∧ adminTok.role = UserRole.admin)
    ∧ plan_detail_page (some adminSession) samplePlan.id sampleDB
        = .ok (samplePlan, exercisesOfPlanSorted sampleDB samplePlan.id) :=
  ⟨⟨by decide, by decide, by decide, by decide, by decide, by decide⟩,
   (ownership_filter_applies_to_admins_too sampleDB adminTok samplePlan
      (by decide) (by decide) (by decide) (by decide)
      adminSession (by decide) adminTok (by decide)
      emptyPlanUpdate 0 emptyExerciseUpdate).2.1⟩

/-- Role-update payload with no role supplied. -/
def noRoleUpdate : AdminUserUpdate := ⟨Option.none⟩

/-- C3: an admin invoking the change-role endpoint or the delete-user endpoint
with their own user id gets a Bad-request (400) client error, and the store —
their role and account included — is left unchanged. -/
theorem admin_cannot_modify_self
    (db : DB) (admin : TokenPayload) (hadm : admin.role = UserRole.admin)
    (uid : Nat) (hself : uid = admin.user_id) (ru : AdminUserUpdate) :
    admin_change_user_role admin uid ru db = (.err 400 "Нельзя изменить свою роль", db)
    ∧ admin_delete_user admin uid db = (.err 400 "Нельзя удалить себя", db) := by
  subst hself
  constructor <;> simp [admin_change_user_role, admin_delete_user, isAdminCaller, hadm]

/-- C3 witness: the self-protection theorem applied to the concrete admin token
and the sample store. -/
theorem admin_cannot_modify_self_witness :
    (adminTok.role = UserRole.admin ∧ adminTok.user_id = adminTok.user_id)
    ∧ admin_change_user_role adminTok adminTok.user_id noRoleUpdate sampleDB
        = (.err 400 "Нельзя изменить свою роль", sampleDB) :=
  ⟨⟨by decide, rfl⟩,
   (admin_cannot_modify_self sampleDB adminTok (by decide) adminTok.user_id rfl
      noRoleUpdate).1⟩

/-- C5 counterexample: a registration whose email is the seeded admin's email
and whose username is ursula's username matches two distinct stored users;
the duplicate probe's `scalar_one_or_none()` raises `MultipleResultsFound`
and both registration paths surface a generic server error — not the claimed
Conflict error — though still no user row is created. -/
theorem duplicate_registration_two_matches_server_error :
    sampleAdmin ∈ sampleDB.users
    ∧ sampleUserU ∈ sampleDB.users
    ∧ sampleAdmin ≠ sampleUserU
    ∧ sampleAdmin.email = "admin@example.com"
    ∧ sampleUserU.username = "ursula"
    ∧ api_register
        { email := "admin@example.com", username := "ursula",
          password := "hunter22", full_name := Option.none } 8 sampleDB
        = (.serverError, sampleDB)
    ∧ register "admin@example.com" "ursula" "hunter22" Option.none 8 sampleDB
        = (.serverError, sampleDB) := by
  decide

/-- C5 as amended: a registration request whose email equals an existing
user's email or whose username equals an existing user's username — and which
does not match a second, distinct stored user — fails with a Conflict error
(400 on the API, the error redirect on the web form) and the store is
unchanged, so no user row is created.  (When the email matches one stored
user and the username a different one, `scalar_one_or_none` raises
`MultipleResultsFound` instead and a generic server error surfaces, as the
counterexample shows.) -/
theorem duplicate_registration_rejected
    (db : DB) (x : User) (hx : x ∈ db.users)
    (ud : UserCreate) (now : Nat)
    (hdup : ud.email = x.email ∨ ud.username = x.username)
    (huniq : ∀ y ∈ db.users, (y.email = ud.email ∨ y.username = ud.username) → y = x)
    (hwu : (db.users.map (·.id)).Nodup) :
    api_register ud now db = (.err 400 "Email или имя пользователя уже существуют", db)
    ∧ register ud.email ud.username ud.password ud.full_name now db
        = (.redirect "/register?error=1", db) := by
  have hf : registrationQuery db ud.email ud.username = [x] := by
    unfold registrationQuery
    apply filter_eq_singleton (hwu.of_map _) hx
    · rcases hdup with h | h <;> simp [h]
    · intro b hb hpb
      exact huniq b hb (by simpa using hpb)
  constructor <;> simp [api_register, register, hf, scalar_one_or_none]

/-- C5 amended-theorem witness: registering with the seeded admin's email and
a fresh username matches the admin row alone and is rejected by both
registration paths with the store unchanged. -/
theorem duplicate_registration_rejected_witness :
    (sampleAdmin ∈ sampleDB.users ∧ "admin@example.com" = sampleAdmin.email
     ∧ (∀ y ∈ sampleDB.users,
          (y.email = "admin@example.com" ∨ y.username = "newguy") → y = sampleAdmin)
     ∧ (sampleDB.users.map (·.id)).Nodup)
    ∧ api_register
        { email := "admin@example.com", username := "newguy",
          password := "hunter22", full_name := Option.none } 8 sampleDB
        = (.err 400 "Email или имя пользователя уже существуют", sampleDB) :=
  ⟨⟨by decide, by decide, by decide, by decide⟩,
   (duplicate_registration_rejected sampleDB sampleAdmin (by decide)
      { email := "admin@example.com", username := "newguy",
        password := "hunter22", full_name := Option.none } 8
      (Or.inl (by decide)) (by decide) (by decide)).1⟩

/-- C6: the unauthenticated public listing never contains a plan whose
`is_public` flag is false, whatever `skip` and `limit` are supplied. -/
theorem public_listing_only_public
    (db : DB) (skip limit : Nat) (P : WorkoutPlan)
    (hP : P.is_public = false) :
    P ∉ get_public_workout_plans skip limit db := by
  intro hmem
  have h1 : P ∈ List.insertionSort planCreatedDesc (db.plans.filter (·.is_public)) :=
    List.mem_of_mem_drop (List.mem_of_mem_take hmem)
  have h2 : P ∈ db.plans.filter (·.is_public) :=
    ((List.perm_insertionSort planCreatedDesc _).mem_iff).mp h1
  have h3 := (List.mem_filter.mp h2).2
  simp [hP] at h3

/-- C6 witness: the sample plan is private and indeed absent from the public
listing of the sample store. -/
theorem public_listing_only_public_witness :
    samplePlan.is_public = false
    ∧ samplePlan ∉ get_public_workout_plans 0 12 sampleDB :=
  ⟨by decide, public_listing_only_public sampleDB 0 12 samplePlan (by decide)⟩

/-- Bearer token of the plan owner (user id 2). -/
def ownerTok : TokenPayload := { sub := "ursula", user_id := 2, role := UserRole.user }

/-- Web session record of the plan owner. -/
def ownerSession : SessionUser :=
  { id := 2, username := "ursula", email := "u@x.com", role := "user" }

/-- C7: both exercise listings of a plan — the API listing and the web
plan-detail page — return the plan's exercises sorted by the `order` column
ascending (NULL first), and the returned list is a permutation of the plan's
stored exercises, so the result is independent of insertion order. -/
theorem exercise_listing_sorted_by_order
    (db : DB) (caller : TokenPayload) (P : WorkoutPlan)
    (hwp : (db.plans.map (·.id)).Nodup) (hP : P ∈ db.plans)
    (hown : P.owner_id = caller.user_id)
    (su : SessionUser) (hsu : su.role ≠ "admin") (hsuid : P.owner_id = su.id) :
    get_exercises_by_plan caller P.id db = .ok (exercisesOfPlanSorted db P.id)
    ∧ plan_detail_page (some su) P.id db = .ok (P, exercisesOfPlanSorted db P.id)
    ∧ List.Sorted exOrderLE (exercisesOfPlanSorted db P.id)
    ∧ List.Perm (exercisesOfPlanSorted db P.id)
        (db.exercises.filter (fun e => e.workout_plan_id == P.id)) := by
  have hq1 : ownedPlanQuery db P.id caller.user_id = [P] :=
    ownedPlanQuery_singleton hwp hP hown
  have hq2 : db.plans.filter (fun p => p.id == P.id && p.owner_id == su.id) = [P] :=
    ownedPlanQuery_singleton hwp hP hsuid
  refine ⟨by simp [get_exercises_by_plan, hq1, scalar_one_or_none], ?_,
          List.sorted_insertionSort exOrderLE _,
          List.perm_insertionSort exOrderLE _⟩
  have hrole : (su.role == "admin") = false := by simp [hsu]
  simp [plan_detail_page, hrole, hq2, scalar_one_or_none]

/-- C7 witness: the sorted-listing theorem applied to the sample store with the
owner's bearer token and web session. -/
theorem exercise_listing_sorted_by_order_witness :
    ((sampleDB.plans.map (·.id)).Nodup ∧ samplePlan ∈ sampleDB.plans
     ∧ samplePlan.owner_id = ownerTok.user_id
     ∧ ownerSession.role ≠ "admin" ∧ samplePlan.owner_id = ownerSession.id)
    ∧ get_exercises_by_plan ownerTok samplePlan.id sampleDB
        = .ok (exercisesOfPlanSorted sampleDB samplePlan.id) :=
  ⟨⟨by decide, by decide, by decide, by decide, by decide⟩,
   (exercise_listing_sorted_by_order sampleDB ownerTok samplePlan
      (by decide) (by decide) (by decide) ownerSession (by decide) (by decide)).1⟩

/-- C8: deleting a user through the admin delete-user endpoint cascades —
afterwards the user's row is gone, no plan whose owner_id is the deleted id
remains, and no exercise of any plan the user owned remains. -/
theorem admin_delete_user_cascades
    (db : DB) (admin : TokenPayload) (hadm : admin.role = UserRole.admin)
    (x : User) (hx : x ∈ db.users) (uid : Nat) (hxid : x.id = uid)
    (hne : uid ≠ admin.user_id)
    (hwu : (db.users.map (·.id)).Nodup) :
    admin_delete_user admin uid db
      = (.ok ("Пользователь " ++ x.username ++ " удален"),
         { users := db.users.filter (fun u => !(u.id == uid))
           plans := db.plans.filter (fun p => !(p.owner_id == uid))
           exercises := db.exercises.filter (fun e =>
             !(db.plans.any (fun p => p.owner_id == uid && p.id == e.workout_plan_id))) })
    ∧ (∀ y ∈ (admin_delete_user admin uid db).2.users, y.id ≠ uid)
    ∧ (∀ p ∈ (admin_delete_user admin uid db).2.plans, p.owner_id ≠ uid)
    ∧ (∀ e ∈ (admin_delete_user admin uid db).2.exercises,
        ∀ p ∈ db.plans, p.owner_id = uid → e.workout_plan_id ≠ p.id) := by
  subst hxid
  have hq : db.users.filter (fun u => u.id == x.id) = [x] := idFilter_singleton hwu hx
  have heq : admin_delete_user admin x.id db
      = (.ok ("Пользователь " ++ x.username ++ " удален"),
         { users := db.users.filter (fun u => !(u.id == x.id))
           plans := db.plans.filter (fun p => !(p.owner_id == x.id))
           exercises := db.exercises.filter (fun e =>
             !(db.plans.any (fun p => p.owner_id == x.id && p.id == e.workout_plan_id))) }) := by
    simp [admin_delete_user, isAdminCaller, hadm, hne, hq, scalar_one_or_none]
  refine ⟨heq, ?_, ?_, ?_⟩ <;> rw [heq]
  · intro y hy
    simpa using (List.mem_filter.mp hy).2
  · intro p hp
    simpa using (List.mem_filter.mp hp).2
  · intro e he p hp hpown heq2
    have hno := (List.mem_filter.mp he).2
    simp only [Bool.not_eq_true', List.any_eq_false] at hno
    exact absurd (by simp [hpown, heq2]) (hno p hp)

/-- C8 witness: deleting user 2 from the sample store removes the user, the
user's plan and the plan's exercise. -/
theorem admin_delete_user_cascades_witness :
    (adminTok.role = UserRole.admin ∧ sampleUserU ∈ sampleDB.users
     ∧ sampleUserU.id = 2 ∧ (2 : Nat) ≠ adminTok.user_id
     ∧ (sampleDB.users.map (·.id)).Nodup)
    ∧ admin_delete_user adminTok 2 sampleDB
        = (.ok "Пользователь ursula удален",
           { users := [sampleAdmin], plans := [], exercises := [] }) :=
  ⟨⟨by decide, by decide, by decide, by decide, by decide⟩, by
    have h := (admin_delete_user_cascades sampleDB adminTok (by decide)
      sampleUserU (by decide) 2 (by decide) (by decide) (by decide)).1
    rw [h]
    decide⟩

/-- C9: `create_workout_plan` stamps the new row's owner_id with the caller's
user id whatever the payload holds (the payload has no owner field);
`create_exercise` rejects with NotFound whenever the payload's
`workout_plan_id` does not name a plan owned by the caller, and when it names
a plan the caller owns, the new exercise carries exactly that plan id. -/
theorem creates_stamp_owner_and_parent
    (db : DB) (caller : TokenPayload) (pd : WorkoutPlanCreate) (now : Nat)
    (ed : ExerciseCreate)
    (hnot : ∀ p ∈ db.plans, p.id = ed.workout_plan_id → p.owner_id ≠ caller.user_id)
    (ed2 : ExerciseCreate) (P : WorkoutPlan)
    (hwp : (db.plans.map (·.id)).Nodup) (hP : P ∈ db.plans)
    (hPid : ed2.workout_plan_id = P.id) (hPown : P.owner_id = caller.user_id) :
    (∃ newPlan db',
        create_workout_plan caller pd now db = (.ok newPlan, db')
        ∧ newPlan.owner_id = caller.user_id)
    ∧ create_exercise caller ed now db = (.err 404 "План тренировок не найден", db)
    ∧ (∃ newEx db'',
        create_exercise caller ed2 now db = (.ok newEx, db'')
        ∧ newEx.workout_plan_id = ed2.workout_plan_id) := by
  refine ⟨⟨_, _, rfl, rfl⟩, ?_, ?_⟩
  · have hz : ownedPlanQuery db ed.workout_plan_id caller.user_id = [] :=
      ownedPlanQuery_nil hnot
    simp [create_exercise, hz, scalar_one_or_none]
  · have hq : ownedPlanQuery db ed2.workout_plan_id caller.user_id = [P] := by
      rw [hPid]
      exact ownedPlanQuery_singleton hwp hP hPown
    refine ⟨{ id := nextId (db.exercises.map (·.id)), name := ed2.name,
              description := ed2.description, sets := ed2.sets, reps := ed2.reps,
              rest_seconds := ed2.rest_seconds, order := ed2.order,
              created_at := now, workout_plan_id := ed2.workout_plan_id },
            { db with exercises := db.exercises ++
                [{ id := nextId (db.exercises.map (·.id)), name := ed2.name,
                   description := ed2.description, sets := ed2.sets, reps := ed2.reps,
                   rest_seconds := ed2.rest_seconds, order := ed2.order,
                   created_at := now, workout_plan_id := ed2.workout_plan_id }] },
            ?_, rfl⟩
    simp [create_exercise, hq, scalar_one_or_none]

/-- C9 witness: with the owner's token, creating an exercise under an absent
plan id is rejected with the store unchanged; the theorem is applied with the
same token to the sample plan the caller owns. -/
theorem creates_stamp_owner_and_parent_witness :
    ((∀ p ∈ sampleDB.plans, p.id = 999 → p.owner_id ≠ ownerTok.user_id)
     ∧ (sampleDB.plans.map (·.id)).Nodup ∧ samplePlan ∈ sampleDB.plans
     ∧ samplePlan.owner_id = ownerTok.user_id)
    ∧ create_exercise ownerTok
        { name := "Lunge", description := Option.none, sets := some 2,
          reps := some "12", rest_seconds := some 30, order := Option.none,
          workout_plan_id := 999 } 6 sampleDB
        = (.err 404 "План тренировок не найден", sampleDB) :=
  ⟨⟨by decide, by decide, by decide, by decide⟩,
   (creates_stamp_owner_and_parent sampleDB ownerTok
      { title := "t", description := Option.none, difficulty := Option.none,
        duration_weeks := Option.none, is_public := false } 6
      { name := "Lunge", description := Option.none, sets := some 2,
        reps := some "12", rest_seconds := some 30, order := Option.none,
        workout_plan_id := 999 }
      (by decide)
      { name := "Lunge", description := Option.none, sets := some 2,
        reps := some "12", rest_seconds := some 30, order := Option.none,
        workout_plan_id := 10 }
      samplePlan (by decide) (by decide) (by decide) (by decide)).2.1⟩

/-- C4: partial updates — plan update, exercise update, self-profile update —
apply exactly the fields present in the request payload: every unset field
keeps its previous value (so a title-only plan update leaves description,
difficulty, duration_weeks and is_public unchanged), and a supplied password
is re-hashed before being stored. -/
theorem unset_fields_preserved_on_update
    (db : DB) (caller : TokenPayload)
    (pid : Nat) (u : WorkoutPlanUpdate) (now : Nat) (p0 : WorkoutPlan)
    (hp : scalar_one_or_none (ownedPlanQuery db pid caller.user_id) = .one p0)
    (eid : Nat) (eu : ExerciseUpdate) (e0 : Exercise)
    (he : scalar_one_or_none (ownedExerciseQuery db eid caller.user_id) = .one e0)
    (uu : UserUpdate) (x0 : User)
    (hx : scalar_one_or_none (db.users.filter (fun y => y.id == caller.user_id))
            = .one x0) :
    ((update_workout_plan caller pid u now db).1 = .ok (applyPlanUpdate u now p0)
     ∧ (u.title = Option.none → (applyPlanUpdate u now p0).title = p0.title)
     ∧ (u.description = Option.none →
          (applyPlanUpdate u now p0).description = p0.description)
     ∧ (u.difficulty = Option.none →
          (applyPlanUpdate u now p0).difficulty = p0.difficulty)
     ∧ (u.duration_weeks = Option.none →
          (applyPlanUpdate u now p0).duration_weeks = p0.duration_weeks)
     ∧ (u.is_public = Option.none → (applyPlanUpdate u now p0).is_public = p0.is_public)
     ∧ (applyPlanUpdate u now p0).owner_id = p0.owner_id)
    ∧ ((update_exercise caller eid eu db).1 = .ok (applyExerciseUpdate eu e0)
     ∧ (eu.name = Option.none → (applyExerciseUpdate eu e0).name = e0.name)
     ∧ (eu.description = Option.none →
          (applyExerciseUpdate eu e0).description = e0.description)
     ∧ (eu.sets = Option.none → (applyExerciseUpdate eu e0).sets = e0.sets)
     ∧ (eu.reps = Option.none → (applyExerciseUpdate eu e0).reps = e0.reps)
     ∧ (eu.rest_seconds = Option.none →
          (applyExerciseUpdate eu e0).rest_seconds = e0.rest_seconds)
     ∧ (eu.order = Option.none → (applyExerciseUpdate eu e0).order = e0.order)
     ∧ (applyExerciseUpdate eu e0).workout_plan_id = e0.workout_plan_id)
    ∧ (∀ x' db', update_current_user caller uu db = (.ok x', db') →
        x' = applyUserUpdate uu x0
        ∧ (∀ pw, uu.password = some pw → x'.hashed_password = get_password_hash pw)
        ∧ (uu.password = Option.none → x'.hashed_password = x0.hashed_password)
        ∧ (uu.email = Option.none → x'.email = x0.email)
        ∧ (uu.username = Option.none → x'.username = x0.username)
        ∧ (uu.full_name = Option.none → x'.full_name = x0.full_name)) := by
  refine ⟨⟨?_, ?_, ?_, ?_, ?_, ?_, rfl⟩, ⟨?_, ?_, ?_, ?_, ?_, ?_, ?_, rfl⟩, ?_⟩
  · simp [update_workout_plan, hp]
  · intro h; simp [applyPlanUpdate, h]
  · intro h; simp [applyPlanUpdate, h]
  · intro h; simp [applyPlanUpdate, h]
  · intro h; simp [applyPlanUpdate, h]
  · intro h; simp [applyPlanUpdate, h]
  · simp [update_exercise, he]
  · intro h; simp [applyExerciseUpdate, h]
  · intro h; simp [applyExerciseUpdate, h]
  · intro h; simp [applyExerciseUpdate, h]
  · intro h; simp [applyExerciseUpdate, h]
  · intro h; simp [applyExerciseUpdate, h]
  · intro h; simp [applyExerciseUpdate, h]
  · intro x' db' heq
    simp only [update_current_user, hx] at heq
    split at heq
    · exact absurd heq (by simp)
    · split at heq
      · exact absurd heq (by simp)
      · injection heq with h1 h2
        injection h1 with h1
        subst h1
        refine ⟨rfl, ?_, ?_, ?_, ?_, ?_⟩
        · intro pw hpw; simp [applyUserUpdate, hpw]
        · intro h; simp [applyUserUpdate, h]
        · intro h; simp [applyUserUpdate, h]
        · intro h; simp [applyUserUpdate, h]
        · intro h; simp [applyUserUpdate, h]

/-- Plan-update payload that supplies only a new title. -/
def titleOnlyUpdate : WorkoutPlanUpdate :=
  ⟨some "Marathon Plan", Option.none, Option.none, Option.none, Option.none⟩

/-- User-update payload supplying only a new password. -/
def passwordOnlyUpdate : UserUpdate :=
  ⟨Option.none, Option.none, Option.none, some "newpass77"⟩

/-- C4 witness: on the sample store the owner's title-only plan update is
accepted with all other fields untouched (the frame theorem applied at
concrete lookups). -/
theorem unset_fields_preserved_on_update_witness :
    (scalar_one_or_none (ownedPlanQuery sampleDB 10 ownerTok.user_id)
        = .one samplePlan
     ∧ scalar_one_or_none (ownedExerciseQuery sampleDB 5 ownerTok.user_id)
        = .one sampleExercise
     ∧ scalar_one_or_none (sampleDB.users.filter (fun y => y.id == ownerTok.user_id))
        = .one sampleUserU)
    ∧ (update_workout_plan ownerTok 10 titleOnlyUpdate 99 sampleDB).1
        = .ok (applyPlanUpdate titleOnlyUpdate 99 samplePlan) :=
  ⟨⟨by decide, by decide, by decide⟩,
   (unset_fields_preserved_on_update sampleDB ownerTok 10 titleOnlyUpdate 99 samplePlan
      (by decide) 5 emptyExerciseUpdate sampleExercise (by decide)
      passwordOnlyUpdate sampleUserU (by decide)).1.1⟩

/-- User alice: her email is the string "a@x.com". -/
def aliceU : User :=
  { id := 1, email := "a@x.com", username := "alice",
    hashed_password := get_password_hash "pw1", full_name := Option.none,
    role := UserRole.user, created_at := 0 }

/-- User bob: his username is the same string "a@x.com" (allowed: the
registration duplicate check compares emails to emails and usernames to
usernames only). -/
def bobU : User :=
  { id := 2, email := "b@y.com", username := "a@x.com",
    hashed_password := get_password_hash "pw2", full_name := Option.none,
    role := UserRole.user, created_at := 1 }

/-- Store holding alice and bob: the string "a@x.com" matches one user's email
column and the other user's username column. -/
def dbCollide : DB := { users := [aliceU, bobU], plans := [], exercises := [] }

/-- C10 counterexample: alice is stored, "a@x.com" is her email and "pw1" her
correct password, yet both login operations surface a server error
(`scalar_one_or_none` hits `MultipleResultsFound`: the string matches alice's
email and bob's username), not the claimed authentication and not the claimed
error redirect / 401.  The last conjunct shows the store is reachable:
`api_register` accepts bob's payload next to alice. -/
theorem login_collision_neither_authenticates_nor_fails_cleanly :
    aliceU ∈ dbCollide.users
    ∧ aliceU.email = "a@x.com"
    ∧ verify_password "pw1" aliceU.hashed_password = true
    ∧ login "a@x.com" "pw1" dbCollide = .serverError
    ∧ api_login "a@x.com" "pw1" dbCollide = .serverError
    ∧ (api_register
        { email := "b@y.com", username := "a@x.com", password := "pw2",
          full_name := Option.none } 1
        { users := [aliceU], plans := [], exercises := [] }).1 = .ok bobU := by
  decide

/-- C10 as amended: in both login operations the single `username` input is
matched against the email and username columns, and — provided at most one
stored user matches the supplied string (no cross-column collision on it) —
supplying a user's email or username with the correct password authenticates
that user, while the web form redirects to the error page and the API returns
401 exactly when no user matches or the password does not verify. -/
theorem login_matches_email_or_username
    (db : DB) (s pw : String)
    (hwu : (db.users.map (·.id)).Nodup)
    (huniq : ∀ x ∈ db.users, ∀ y ∈ db.users,
        (x.email = s ∨ x.username = s) → (y.email = s ∨ y.username = s) → x = y) :
    (∀ x ∈ db.users, (x.email = s ∨ x.username = s) →
        (verify_password pw x.hashed_password = true →
          login s pw db
            = .ok ({ id := x.id, username := x.username, email := x.email,
                     role := x.role.value },
                   { sub := x.username, user_id := x.id, role := x.role.value })
          ∧ api_login s pw db
            = .ok { sub := x.username, user_id := x.id, role := x.role.value })
        ∧ (verify_password pw x.hashed_password = false →
          login s pw db = .redirect "/login?error=1"
          ∧ api_login s pw db = .err 401 "Неверные учетные данные"))
    ∧ ((∀ x ∈ db.users, ¬(x.email = s ∨ x.username = s)) →
        login s pw db = .redirect "/login?error=1"
        ∧ api_login s pw db = .err 401 "Неверные учетные данные") := by
  constructor
  · intro x hx hm
    have hf : db.users.filter (fun y => y.email == s || y.username == s) = [x] := by
      apply filter_eq_singleton (hwu.of_map _) hx
      · rcases hm with h | h <;> simp [h]
      · intro b hb hpb
        exact huniq b hb x hx (by simpa using hpb) hm
    have hlk : loginLookup db s = .one x := by
      unfold loginLookup
      rw [hf]
      rfl
    constructor
    · intro hv
      constructor <;> simp [login, api_login, hlk, hv]
    · intro hv
      constructor <;> simp [login, api_login, hlk, hv]
  · intro habs
    have hf : db.users.filter (fun y => y.email == s || y.username == s) = [] :=
      List.filter_eq_nil_iff.mpr (fun x hx h => habs x hx (by simpa using h))
    have hlk : loginLookup db s = .none := by
      unfold loginLookup
      rw [hf]
      rfl
    constructor <;> simp [login, api_login, hlk]

/-- C10 amended-theorem witness: on the sample store, logging in with the
username "ursula" and the correct password returns a token for user 2. -/
theorem login_matches_email_or_username_witness :
    (sampleUserU ∈ sampleDB.users ∧ sampleUserU.username = "ursula"
     ∧ verify_password "secret1" sampleUserU.hashed_password = true)
    ∧ api_login "ursula" "secret1" sampleDB
        = .ok { sub := "ursula", user_id := 2, role := "user" } :=
  ⟨⟨by decide, by decide, by decide⟩,
   (((login_matches_email_or_username sampleDB "ursula" "secret1" (by decide)
       (by decide)).1 sampleUserU (by decide) (Or.inr (by decide))).1
       (by decide)).2⟩

end Fitness
